import Mathlib
set_option maxRecDepth 2000

/-
Verification of the goldbackend price-refresh pipeline.

The definitions below are a shallow embedding of the JavaScript source:
  - fetchMetalPrice / parseQuote model the GoldAPI client of src/index.js
    (lines 120-160) and src/unnamed/part_001 (lines 104-163), including the
    circuit breaker of part_001;
  - updateAllMetalPrices models the refresh tick of src/index.js
    (lines 163-209) together with its selective cache invalidation;
  - getFromCache / setCache / cacheMiddleware model the response cache of
    src/index.js (lines 38-81);
  - metalPriceHandler models the GET /api/metals/:symbol/price handler of
    src/index.js (lines 408-474).

JavaScript number behaviour that matters here (undefined propagating to NaN
through arithmetic, falsiness of 0 and NaN in shortcuts such as
  data.ask || data.price, Math.round) is modelled explicitly by JsNum.
-/

namespace GoldBackend

/-- A JavaScript number: NaN, signed infinity, or a finite value (rational). -/
inductive JsNum
  | nan
  | inf (pos : Bool)
  | num (q : ℚ)
deriving DecidableEq, Repr

/-- JS truthiness of a number: NaN and 0 are falsy. -/
def truthyN : JsNum → Bool
  | .nan => false
  | .inf _ => true
  | .num q => decide (q ≠ 0)

/-- JS addition. -/
def jsAdd : JsNum → JsNum → JsNum
  | .nan, _ => .nan
  | _, .nan => .nan
  | .inf p, .inf r => if p = r then .inf p else .nan
  | .inf p, .num _ => .inf p
  | .num _, .inf p => .inf p
  | .num a, .num b => .num (a + b)

/-- JS negation. -/
def jsNeg : JsNum → JsNum
  | .nan => .nan
  | .inf p => .inf (!p)
  | .num a => .num (-a)

/-- JS subtraction. -/
def jsSub (a b : JsNum) : JsNum := jsAdd a (jsNeg b)

/-- JS multiplication. -/
def jsMul : JsNum → JsNum → JsNum
  | .nan, _ => .nan
  | _, .nan => .nan
  | .inf p, .inf r => .inf (p = r)
  | .inf p, .num b => if b = 0 then .nan else .inf (p = decide (0 < b))
  | .num a, .inf p => if a = 0 then .nan else .inf (p = decide (0 < a))
  | .num a, .num b => .num (a * b)

/-- JS division (0/0 is NaN, nonzero/0 is signed infinity). -/
def jsDiv : JsNum → JsNum → JsNum
  | .nan, _ => .nan
  | _, .nan => .nan
  | .inf _, .inf _ => .nan
  | .inf p, .num b => .inf (p = decide (0 ≤ b))
  | .num _, .inf _ => .num 0
  | .num a, .num b =>
      if b = 0 then (if a = 0 then .nan else .inf (decide (0 < a))) else .num (a / b)

/-- JS Math.round: floor of x + 1/2, NaN and infinities pass through. -/
def jsRound : JsNum → JsNum
  | .nan => .nan
  | .inf p => .inf p
  | .num a => .num ((⌊a + 1/2⌋ : ℤ) : ℚ)

/-- The rounding idiom Math.round(x * 100) / 100 used for all money fields. -/
def round2 (n : JsNum) : JsNum := jsDiv (jsRound (jsMul n (.num 100))) (.num 100)

/-- Truthiness of an optional JSON number field (absent and 0 are falsy). -/
def truthyV : Option ℚ → Bool
  | none => false
  | some q => decide (q ≠ 0)

/-- The JS shortcut a || b on optional number fields. -/
def jsOrV (a b : Option ℚ) : Option ℚ := if truthyV a then a else b

/-- Coerce an optional field into arithmetic: absent behaves as NaN. -/
def toNum : Option ℚ → JsNum
  | none => .nan
  | some q => .num q

/-- Truthiness of the optional error field of a response body. -/
def errTruthy : Option String → Bool
  | none => false
  | some s => decide (s ≠ "")

/-- The flat JSON body returned by the source API, as consumed by
fetchMetalPrice: optional numeric fields plus an optional error field. -/
structure ApiBody where
  error : Option String
  ask : Option ℚ
  bid : Option ℚ
  price : Option ℚ
  prev_close_price : Option ℚ
  high_24h : Option ℚ
  low_24h : Option ℚ
  open_price : Option ℚ
  timestamp : Option ℚ
deriving DecidableEq, Repr

/-- Failure modes of the client, following the error taxonomy of the code:
unsupported symbol (thrown before any network call), circuit-open rejection,
a network/timeout failure, and an error actively signaled by the source. -/
inductive FetchErr
  | unsupportedSymbol (s : String)
  | circuitOpen
  | networkError
  | sourceApiError (msg : String)
deriving DecidableEq, Repr

deriving instance DecidableEq for Except

/-- The object returned by fetchMetalPrice on success (src/index.js 140-151). -/
structure MetalQuote where
  price : JsNum
  ask : JsNum
  bid : JsNum
  change : JsNum
  changePercent : JsNum
  timestamp : Option ℚ
  high_24h : Option JsNum
  low_24h : Option JsNum
  open_price : Option JsNum
  prev_close_price : Option JsNum
deriving DecidableEq, Repr

/-- estimatedPrice = (askPrice + bidPrice) / 2 with askPrice = ask || price
and bidPrice = bid || price (src/index.js 133-135). -/
def midOf (data : ApiBody) : JsNum :=
  jsDiv (jsAdd (toNum (jsOrV data.ask data.price)) (toNum (jsOrV data.bid data.price)))
    (.num 2)

/-- previousClose = prev_close_price || estimatedPrice (src/index.js 136). -/
def prevCloseOf (data : ApiBody) : JsNum :=
  if truthyV data.prev_close_price then toNum data.prev_close_price else midOf data

/-- The ternary idiom field ? Math.round(field * 100) / 100 : null. -/
def optRound2 (v : Option ℚ) : Option JsNum :=
  if truthyV v then some (round2 (toNum v)) else none

/-- The response-processing part of fetchMetalPrice (src/index.js 129-151,
src/unnamed/part_001 126-148): throw on a truthy error field, otherwise
normalize the quote.  now stands for Date.now(). -/
def parseQuote (now : ℚ) (data : ApiBody) : Except FetchErr MetalQuote :=
  if errTruthy data.error then
    .error (.sourceApiError (data.error.getD ""))
  else
    let estimatedPrice := midOf data
    let previousClose := prevCloseOf data
    let change := jsSub estimatedPrice previousClose
    let changePercent := jsMul (jsDiv change previousClose) (.num 100)
    .ok {
      price := round2 estimatedPrice
      ask := round2 (toNum (jsOrV data.ask data.price))
      bid := round2 (toNum (jsOrV data.bid data.price))
      change := round2 change
      changePercent := round2 changePercent
      timestamp := jsOrV data.timestamp (some now)
      high_24h := optRound2 data.high_24h
      low_24h := optRound2 data.low_24h
      open_price := optRound2 data.open_price
      prev_close_price := optRound2 data.prev_close_price }

/-- Association-list lookup keyed by strings (models Map.get and metals[s]). -/
def lookupKey {β : Type} : List (String × β) → String → Option β
  | [], _ => none
  | (k, v) :: rest, s => if s = k then some v else lookupKey rest s

/-- The configured symbol map (src/index.js 96-101, part_001 75-80). -/
def metalsCB : List (String × String) :=
  [("XAU", "XAU/USD"), ("XAG", "XAG/USD"), ("XPT", "XPT/USD"), ("XPD", "XPD/USD")]

/-- The property names every plain object literal inherits from
Object.prototype.  A JS bracket lookup metals[symbol] finds these through
the prototype chain even though they are not keys of the metals literal,
and each resolves to a truthy function or accessor value. -/
def objectProtoKeys : List String :=
  ["constructor", "hasOwnProperty", "isPrototypeOf", "propertyIsEnumerable",
   "toLocaleString", "toString", "valueOf",
   "__defineGetter__", "__defineSetter__", "__lookupGetter__", "__lookupSetter__",
   "__proto__"]

/-- The result of the JS property read metals[symbol]: an own data property
(the endpoint string), a truthy value inherited from Object.prototype, or
undefined. -/
inductive JsProp
  | str (s : String)
  | inherited
  | absent
deriving DecidableEq, Repr

/-- JS property lookup on an object literal, prototype chain included. -/
def jsGetProp (m : List (String × String)) (key : String) : JsProp :=
  match lookupKey m key with
  | some v => .str v
  | none => if key ∈ objectProtoKeys then .inherited else .absent

/-- Truthiness of the looked-up property, as tested by if (!endpoint). -/
def jsTruthyProp : JsProp → Bool
  | .str s => decide (s ≠ "")
  | .inherited => true
  | .absent => false

/-- Circuit breaker states of src/unnamed/part_001 line 98. -/
inductive CBState
  | closed
  | opened
  | halfOpen
deriving DecidableEq, Repr

/-- The process-wide breaker variables: circuitBreakerState, failureCount,
lastFailureTime (src/unnamed/part_001 98-100). -/
structure Breaker where
  state : CBState
  failureCount : Nat
  lastFailureTime : ℚ
deriving DecidableEq, Repr

def FAILURE_THRESHOLD : Nat := 3

def RECOVERY_TIMEOUT : ℚ := 30000

/-- Initial breaker state at process start. -/
def cbInit : Breaker := { state := .closed, failureCount := 0, lastFailureTime := 0 }

/-- Lines 121-124 of part_001: a received response while HALF_OPEN closes the
breaker and resets the counter, before the body is even inspected. -/
def closeIfHalfOpen (b : Breaker) : Breaker :=
  if b.state = .halfOpen then { b with state := .closed, failureCount := 0 } else b

/-- Lines 150-155 of part_001: every caught failure increments failureCount
and, once the threshold is reached, opens the breaker and stamps the time. -/
def recordFailure (b : Breaker) (now : ℚ) : Breaker :=
  let b1 := { b with failureCount := b.failureCount + 1 }
  if FAILURE_THRESHOLD ≤ b1.failureCount then
    { b1 with state := .opened, lastFailureTime := now }
  else b1

/-- Environment outcome of one network attempt: the request either fails at
the transport level or yields a response body. -/
inductive AttemptOutcome
  | netError
  | response (body : ApiBody)
deriving DecidableEq, Repr

/-- Whether an attempt outcome ends in the catch block of the fetch loop. -/
def attemptFailed : AttemptOutcome → Bool
  | .netError => true
  | .response body => errTruthy body.error

/-- The retry loop of part_001 fetchMetalPrice (lines 116-162).  The list
supplies one outcome per network attempt; the Nat is the number of attempts
still allowed (retries + 1 at entry).  Returns the breaker, the result, and
the number of network calls issued. -/
def fetchLoopCB (now : ℚ) :
    Breaker → List AttemptOutcome → Nat → Breaker × Except FetchErr MetalQuote × Nat
  | b, _, 0 => (b, .error .networkError, 0)
  | b, [], _ + 1 => (b, .error .networkError, 0)
  | b, .netError :: rest, n + 1 =>
      let b1 := recordFailure b now
      if n = 0 then (b1, .error .networkError, 1)
      else
        let p := fetchLoopCB now b1 rest n
        (p.1, p.2.1, p.2.2 + 1)
  | b, .response body :: rest, n + 1 =>
      let b1 := closeIfHalfOpen b
      match parseQuote now body with
      | .ok q => (b1, .ok q, 1)
      | .error e =>
          let b2 := recordFailure b1 now
          if n = 0 then (b2, .error e, 1)
          else
            let p := fetchLoopCB now b2 rest n
            (p.1, p.2.1, p.2.2 + 1)

/-- fetchMetalPrice of src/unnamed/part_001 (lines 104-163): the truthiness
guard on the JS property read metals[metalSymbol] (prototype chain
included, so inherited names such as toString pass it), the circuit-breaker
entry check, then the retry loop. -/
def fetchMetalPrice (b : Breaker) (now : ℚ) (metalSymbol : String)
    (outcomes : List AttemptOutcome) (retries : Nat) :
    Breaker × Except FetchErr MetalQuote × Nat :=
  if jsTruthyProp (jsGetProp metalsCB metalSymbol) then
    if b.state = .opened then
      if RECOVERY_TIMEOUT < now - b.lastFailureTime then
        fetchLoopCB now { b with state := .halfOpen } outcomes (retries + 1)
      else (b, .error .circuitOpen, 0)
    else fetchLoopCB now b outcomes (retries + 1)
  else (b, .error (.unsupportedSymbol metalSymbol), 0)

/-- The retry loop of src/index.js fetchMetalPrice (lines 124-159), which has
no circuit breaker. -/
def fetchLoopNB (now : ℚ) :
    List AttemptOutcome → Nat → Except FetchErr MetalQuote × Nat
  | _, 0 => (.error .networkError, 0)
  | [], _ + 1 => (.error .networkError, 0)
  | .netError :: rest, n + 1 =>
      if n = 0 then (.error .networkError, 1)
      else
        let p := fetchLoopNB now rest n
        (p.1, p.2 + 1)
  | .response body :: rest, n + 1 =>
      match parseQuote now body with
      | .ok q => (.ok q, 1)
      | .error e =>
          if n = 0 then (.error e, 1)
          else
            let p := fetchLoopNB now rest n
            (p.1, p.2 + 1)

/-- fetchMetalPrice of src/index.js (lines 120-160): the same truthiness
guard on the prototype-chain property read, then the retry loop, returning
the result and the number of network calls. -/
def fetchMetalPriceNB (now : ℚ) (metalSymbol : String)
    (outcomes : List AttemptOutcome) (retries : Nat) :
    Except FetchErr MetalQuote × Nat :=
  if jsTruthyProp (jsGetProp metalsCB metalSymbol) then
    fetchLoopNB now outcomes (retries + 1)
  else (.error (.unsupportedSymbol metalSymbol), 0)

/-- One row of the prices table, columns as in the INSERT OR REPLACE of
src/index.js lines 171-179 (metal is the association key). -/
structure PriceRow where
  price : JsNum
  ask_price : JsNum
  bid_price : JsNum
  change_24h : JsNum
  change_percent : JsNum
  high_24h : Option JsNum
  low_24h : Option JsNum
  open_price : Option JsNum
  prev_close_price : Option JsNum
  last_updated : ℚ
deriving DecidableEq, Repr

/-- The prices table: at most one row per metal, keyed by symbol. -/
abbrev PriceStore := List (String × PriceRow)

/-- INSERT OR REPLACE keyed by the metal primary key. -/
def upsertRow : PriceStore → String → PriceRow → PriceStore
  | [], sym, r => [(sym, r)]
  | (k, v) :: rest, sym, r =>
      if k = sym then (sym, r) :: rest else (k, v) :: upsertRow rest sym r

/-- The row written for a fetched quote, with last_updated = datetime(now). -/
def rowOfQuote (q : MetalQuote) (tickTime : ℚ) : PriceRow :=
  { price := q.price
    ask_price := q.ask
    bid_price := q.bid
    change_24h := q.change
    change_percent := q.changePercent
    high_24h := q.high_24h
    low_24h := q.low_24h
    open_price := q.open_price
    prev_close_price := q.prev_close_price
    last_updated := tickTime }

/-- Per-symbol arm of the refresh tick (src/index.js 166-192): a failed fetch
is swallowed, a successful fetch is written unconditionally; a write error is
also swallowed, leaving the store untouched for that symbol. -/
def updateSymbol (fetchRes : Except FetchErr MetalQuote) (writeOk : Bool)
    (tickTime : ℚ) (st : PriceStore) (sym : String) : PriceStore :=
  match fetchRes with
  | .error _ => st
  | .ok q => if writeOk then upsertRow st sym (rowOfQuote q tickTime) else st

/-- Object.keys(metals): the tracked symbols, in declaration order. -/
def symbolsList : List String := metalsCB.map Prod.fst

/-- The store effect of one refresh tick, updateAllMetalPrices of
src/index.js (lines 163-209): every tracked symbol is processed and failures
are isolated per symbol (Promise.allSettled). -/
def updateAllMetalPrices (fetchRes : String → Except FetchErr MetalQuote)
    (writeOk : String → Bool) (tickTime : ℚ) (st : PriceStore) : PriceStore :=
  symbolsList.foldl (fun acc sym => updateSymbol (fetchRes sym) (writeOk sym) tickTime acc sym) st

/-- Is pat a prefix of the second list (character-wise). -/
def startsWithL : List Char → List Char → Bool
  | [], _ => true
  | _ :: _, [] => false
  | a :: ps, b :: ss => if a = b then startsWithL ps ss else false

/-- Does the list contain pat as a contiguous sublist. -/
def containsL (pat : List Char) : List Char → Bool
  | [] => startsWithL pat []
  | c :: rest => startsWithL pat (c :: rest) || containsL pat rest

/-- The JS String.includes used on cache keys (src/index.js line 199). -/
def strIncludes (s pat : String) : Bool := containsL pat.data s.data

/-- Lines 197-203 of src/index.js: collect the cache keys containing
/api/prices and delete exactly those. -/
def clearPriceCacheKeys {β : Type} (c : List (String × β)) : List (String × β) :=
  c.filter (fun kv => !(strIncludes kv.1 "/api/prices"))

/-- The whole tick of updateAllMetalPrices including the cache invalidation
performed after Promise.allSettled resolves (src/index.js 194-205). -/
def updateAllMetalPricesFull {β : Type} (fetchRes : String → Except FetchErr MetalQuote)
    (writeOk : String → Bool) (tickTime : ℚ) (st : PriceStore)
    (respCache : List (String × β)) : PriceStore × List (String × β) :=
  (updateAllMetalPrices fetchRes writeOk tickTime st, clearPriceCacheKeys respCache)

/-- One entry of the response cache: data, timestamp, duration
(src/index.js 53-57). -/
structure CacheEntry (α : Type) where
  data : α
  timestamp : ℚ
  duration : ℚ
deriving DecidableEq, Repr

/-- The response cache Map, in insertion order. -/
abbrev RespCache (α : Type) := List (String × CacheEntry α)

/-- Map.set: replace in place when the key exists, append otherwise. -/
def mapSet {α : Type} (m : RespCache α) (k : String) (e : CacheEntry α) : RespCache α :=
  if (lookupKey m k).isSome then
    m.map (fun kv => if kv.1 = k then (k, e) else kv)
  else m ++ [(k, e)]

/-- Map.delete by key. -/
def mapDeleteKey {α : Type} (m : RespCache α) (k : String) : RespCache α :=
  m.filter (fun kv => kv.1 ≠ k)

/-- setCache of src/index.js (lines 46-58): when more than 100 entries are
present, evict the first inserted key, then store the entry. -/
def setCache {α : Type} (c : RespCache α) (k : String) (d : α) (dur now : ℚ) : RespCache α :=
  let c1 :=
    if 100 < c.length then
      match c with
      | [] => c
      | kv :: _ => mapDeleteKey c kv.1
    else c
  mapSet c1 k { data := d, timestamp := now, duration := dur }

/-- getFromCache of src/index.js (lines 38-44): a hit only while
now - timestamp < duration. -/
def getFromCache {α : Type} (c : RespCache α) (k : String) (now : ℚ) : Option α :=
  match lookupKey c k with
  | some e => if now - e.timestamp < e.duration then some e.data else none
  | none => none

/-- cacheMiddleware of src/index.js (lines 61-81): on a hit the handler is
not invoked at all; on a miss the handler runs once and a 200 response is
stored.  Returns (status, payload), the number of handler invocations, and
the resulting cache. -/
def cacheMiddleware {α : Type} (dur : ℚ) (c : RespCache α) (key : String) (now : ℚ)
    (handler : Nat × α) : (Nat × α) × Nat × RespCache α :=
  match getFromCache c key now with
  | some d => ((200, d), 0, c)
  | none =>
      ((handler.1, handler.2), 1,
        if handler.1 = 200 then setCache c key handler.2 dur now else c)

/-- The JSON object emitted by GET /api/metals/:symbol/price, with every
optional key modelled explicitly so that the presence or absence of markers
such as stale, age, source and warning is observable. -/
structure MetalResp where
  status : Nat
  success : Option Bool
  symbol : Option String
  price : Option JsNum
  ask : Option JsNum
  bid : Option JsNum
  change : Option JsNum
  changePercent : Option JsNum
  timestamp : Option ℚ
  high_24h : Option (Option JsNum)
  low_24h : Option (Option JsNum)
  open_price : Option (Option JsNum)
  prev_close_price : Option (Option JsNum)
  source : Option String
  warning : Option String
  stale : Option Bool
  age : Option ℚ
  errorMsg : Option String
deriving DecidableEq, Repr

/-- The 400 response for an unsupported symbol (src/index.js 411-416). -/
def invalidSymbolResp : MetalResp :=
  { status := 400, success := none, symbol := none, price := none, ask := none,
    bid := none, change := none, changePercent := none, timestamp := none,
    high_24h := none, low_24h := none, open_price := none, prev_close_price := none,
    source := none, warning := none, stale := none, age := none,
    errorMsg := some "Invalid symbol" }

/-- The fresh-row response, source cached (src/index.js 426-436). -/
def cachedResp (sym : String) (r : PriceRow) (now : ℚ) : MetalResp :=
  { status := 200, success := some true, symbol := some sym, price := some r.price,
    ask := some r.ask_price, bid := some r.bid_price, change := some r.change_24h,
    changePercent := some r.change_percent, timestamp := some now,
    high_24h := none, low_24h := none, open_price := none, prev_close_price := none,
    source := some "cached", warning := none, stale := none, age := none,
    errorMsg := none }

/-- The live response spreading the fetched quote (src/index.js 441-447). -/
def liveResp (sym : String) (q : MetalQuote) (now : ℚ) : MetalResp :=
  { status := 200, success := some true, symbol := some sym, price := some q.price,
    ask := some q.ask, bid := some q.bid, change := some q.change,
    changePercent := some q.changePercent, timestamp := some now,
    high_24h := some q.high_24h, low_24h := some q.low_24h,
    open_price := some q.open_price, prev_close_price := some q.prev_close_price,
    source := some "live", warning := none, stale := none, age := none,
    errorMsg := none }

/-- The fallback response for a stale row when the live fetch fails
(src/index.js 451-462): note there is no stale flag and no age field. -/
def fallbackResp (sym : String) (r : PriceRow) (now : ℚ) : MetalResp :=
  { status := 200, success := some true, symbol := some sym, price := some r.price,
    ask := some r.ask_price, bid := some r.bid_price, change := some r.change_24h,
    changePercent := some r.change_percent, timestamp := some now,
    high_24h := none, low_24h := none, open_price := none, prev_close_price := none,
    source := some "fallback",
    warning := some "Live data unavailable, showing cached data",
    stale := none, age := none, errorMsg := none }

/-- The GET /api/metals/:symbol/price handler of src/index.js (408-474),
returning the response it sends, or none when it sends no response at all.
A falsy metals[symbol] is a 400; a row younger than 30s is served as
cached; otherwise a live fetch is attempted, falling back to the stored row
on fetch failure.  When the fetch fails and no row exists, the code
rethrows at line 464 — but that throw runs inside the async db.get callback
after the outer try/catch of lines 409-473 has already returned, so it only
rejects the callback's ignored promise: the 500 of lines 468-473 is
unreachable on this path and no response is sent (none). -/
def metalPriceHandler (symbol : String) (row : Option PriceRow) (now : ℚ)
    (fetchRes : Except FetchErr MetalQuote) : Option MetalResp :=
  if jsTruthyProp (jsGetProp metalsCB symbol) then
    match row with
    | some r =>
        if now - r.last_updated < 30000 then some (cachedResp symbol r now)
        else
          match fetchRes with
          | .ok q => some (liveResp symbol q now)
          | .error _ => some (fallbackResp symbol r now)
    | none =>
        match fetchRes with
        | .ok q => some (liveResp symbol q now)
        | .error _ => none
  else some invalidSymbolResp

/-- Does a boolean trace contain three consecutive true entries. -/
def threeConsecutive : List Bool → Bool
  | a :: b :: c :: rest => (a && b && c) || threeConsecutive (b :: c :: rest)
  | _ => false

/-- A healthy response body: ask 2001.5, bid 2000.5, nothing else. -/
def goodBody : ApiBody :=
  { error := none, ask := some (4003/2), bid := some (4001/2), price := none,
    prev_close_price := none, high_24h := none, low_24h := none,
    open_price := none, timestamp := none }

/-- A body in which the source actively signals an error. -/
def errBody : ApiBody :=
  { error := some "quota exceeded", ask := none, bid := none, price := none,
    prev_close_price := none, high_24h := none, low_24h := none,
    open_price := none, timestamp := none }

/-- A body with ask, bid and price all absent. -/
def emptyBody : ApiBody :=
  { error := none, ask := none, bid := none, price := none,
    prev_close_price := none, high_24h := none, low_24h := none,
    open_price := none, timestamp := none }

/-- A body whose only price information is price = 0 (prev_close absent). -/
def zeroPriceBody : ApiBody :=
  { error := none, ask := none, bid := none, price := some 0,
    prev_close_price := none, high_24h := none, low_24h := none,
    open_price := none, timestamp := none }

/-- The quote parseQuote produces from goodBody at time 1000. -/
def goodQuote : MetalQuote :=
  { price := .num 2001, ask := .num (4003/2), bid := .num (4001/2),
    change := .num 0, changePercent := .num 0, timestamp := some 1000,
    high_24h := none, low_24h := none, open_price := none, prev_close_price := none }

/-! Helper lemmas about the association-list store and caches. -/

theorem lookupKey_upsertRow_self (s : String) (r : PriceRow) :
    ∀ st : PriceStore, lookupKey (upsertRow st s r) s = some r := by
  intro st
  induction st with
  | nil => simp [upsertRow, lookupKey]
  | cons kv rest ih =>
      obtain ⟨k, v⟩ := kv
      by_cases h : k = s
      · simp [upsertRow, h, lookupKey]
      · simp [upsertRow, h, lookupKey, Ne.symm h, ih]

theorem lookupKey_upsertRow_ne (s sym : String) (r : PriceRow) (h : sym ≠ s) :
    ∀ st : PriceStore, lookupKey (upsertRow st s r) sym = lookupKey st sym := by
  intro st
  induction st with
  | nil => simp [upsertRow, lookupKey, h]
  | cons kv rest ih =>
      obtain ⟨k, v⟩ := kv
      by_cases hk : k = s
      · subst hk
        simp [upsertRow, lookupKey, h]
      · simp [upsertRow, hk, lookupKey, ih]

theorem lookupKey_updateSymbol_ne (fr : Except FetchErr MetalQuote) (w : Bool)
    (t : ℚ) (st : PriceStore) (s sym : String) (h : sym ≠ s) :
    lookupKey (updateSymbol fr w t st s) sym = lookupKey st sym := by
  cases fr with
  | error e => rfl
  | ok q =>
      by_cases hw : w
      · simp [updateSymbol, hw, lookupKey_upsertRow_ne s sym _ h]
      · simp [updateSymbol, hw]

theorem lookupKey_tick_not_mem (f : String → Except FetchErr MetalQuote)
    (w : String → Bool) (t : ℚ) :
    ∀ (syms : List String) (st : PriceStore) (sym : String), sym ∉ syms →
      lookupKey (syms.foldl (fun acc s => updateSymbol (f s) (w s) t acc s) st) sym
        = lookupKey st sym := by
  intro syms
  induction syms with
  | nil => intro st sym _; rfl
  | cons a rest ih =>
      intro st sym hmem
      have h1 : sym ≠ a := fun hc => hmem (hc ▸ List.mem_cons_self a rest)
      have h2 : sym ∉ rest := fun hc => hmem (List.mem_cons_of_mem a hc)
      simpa [lookupKey_updateSymbol_ne (f a) (w a) t st a sym h1] using
        ih (updateSymbol (f a) (w a) t st a) sym h2

theorem lookupKey_tick_spec (f : String → Except FetchErr MetalQuote)
    (w : String → Bool) (t : ℚ) :
    ∀ (syms : List String) (st : PriceStore) (sym : String), syms.Nodup → sym ∈ syms →
      lookupKey (syms.foldl (fun acc s => updateSymbol (f s) (w s) t acc s) st) sym
        = (match f sym with
           | .error _ => lookupKey st sym
           | .ok q => if w sym then some (rowOfQuote q t) else lookupKey st sym) := by
  intro syms
  induction syms with
  | nil => intro st sym _ hmem; cases hmem
  | cons a rest ih =>
      intro st sym hnd hmem
      have hnd1 : a ∉ rest := (List.nodup_cons.mp hnd).1
      have hnd2 : rest.Nodup := (List.nodup_cons.mp hnd).2
      rcases List.mem_cons.mp hmem with heq | hmem2
      · subst heq
        have hstep := lookupKey_tick_not_mem f w t rest
          (updateSymbol (f sym) (w sym) t st sym) sym hnd1
        rw [List.foldl_cons, hstep]
        cases hf : f sym with
        | error e => simp [updateSymbol, hf]
        | ok q =>
            by_cases hw : w sym
            · simp [updateSymbol, hf, hw, lookupKey_upsertRow_self]
            · simp [updateSymbol, hf, hw]
      · have hne : sym ≠ a := fun hc => hnd1 (hc ▸ hmem2)
        rw [List.foldl_cons,
          ih (updateSymbol (f a) (w a) t st a) sym hnd2 hmem2,
          lookupKey_updateSymbol_ne (f a) (w a) t st a sym hne]

theorem symbolsList_nodup : symbolsList.Nodup := by decide

theorem lookupKey_filter_out {β : Type} (p : String → Bool) :
    ∀ (c : List (String × β)) (k : String),
      lookupKey (c.filter fun kv => !(p kv.1)) k
        = (if p k then none else lookupKey c k) := by
  intro c
  induction c with
  | nil => intro k; cases h : p k <;> simp [lookupKey, h]
  | cons kv rest ih =>
      intro k
      obtain ⟨k1, v⟩ := kv
      by_cases h1 : p k1
      · by_cases hk : k = k1
        · subst hk
          simp [List.filter, h1, lookupKey, ih, h1]
        · simp [List.filter, h1, lookupKey, hk, ih]
      · by_cases hk : k = k1
        · subst hk
          simp [List.filter, h1, lookupKey]
        · simp [List.filter, h1, lookupKey, hk, ih]

theorem lookupKey_map_set {α : Type} (k : String) (e : CacheEntry α) :
    ∀ m : RespCache α, (lookupKey m k).isSome = true →
      lookupKey (m.map fun kv => if kv.1 = k then (k, e) else kv) k = some e := by
  intro m
  induction m with
  | nil => intro h; simp [lookupKey] at h
  | cons kv rest ih =>
      intro h
      obtain ⟨k1, v⟩ := kv
      by_cases hk : k1 = k
      · subst hk
        rw [List.map_cons,
          show (if (k1, v).1 = k1 then (k1, e) else (k1, v)) = (k1, e) from if_pos rfl]
        simp [lookupKey]
      · have hk2 : ¬ k = k1 := fun hc => hk hc.symm
        simp only [lookupKey, if_neg hk2] at h
        rw [List.map_cons,
          show (if (k1, v).1 = k then (k, e) else (k1, v)) = (k1, v) from if_neg hk]
        simp only [lookupKey, if_neg hk2]
        exact ih h

theorem lookupKey_append_new {α : Type} (k : String) (e : CacheEntry α) :
    ∀ m : RespCache α, lookupKey m k = none →
      lookupKey (m ++ [(k, e)]) k = some e := by
  intro m
  induction m with
  | nil => intro _; simp [lookupKey]
  | cons kv rest ih =>
      intro h
      obtain ⟨k1, v⟩ := kv
      by_cases hk : k = k1
      · simp [lookupKey, hk] at h
      · simp [lookupKey, hk] at h ⊢
        exact ih h

theorem lookupKey_mapSet_self {α : Type} (m : RespCache α) (k : String) (e : CacheEntry α) :
    lookupKey (mapSet m k e) k = some e := by
  by_cases h : (lookupKey m k).isSome
  · simp [mapSet, h, lookupKey_map_set k e m h]
  · have hn : lookupKey m k = none := Option.not_isSome_iff_eq_none.mp h
    simp [mapSet, hn, lookupKey_append_new k e m hn]

theorem lookupKey_setCache_self {α : Type} (c : RespCache α) (k : String) (d : α)
    (dur now : ℚ) :
    lookupKey (setCache c k d dur now) k
      = some { data := d, timestamp := now, duration := dur } := by
  unfold setCache
  exact lookupKey_mapSet_self _ k _

/-! Claim theorems. -/

/-- Counterexample to claim C6 as stated: toString is not a member of the
configured symbol set, yet the JS property read metals[toString] finds the
truthy inherited Object.prototype method, so the guard passes and network
calls are issued (two here, with a retry) — the call does not fail fast
with UnsupportedSymbol and does not stay at zero network calls. -/
theorem C6_proto_key_counterexample :
    fetchMetalPrice cbInit 0 "toString" [.netError, .netError] 1
      = ({ state := .closed, failureCount := 2, lastFailureTime := 0 },
         .error .networkError, 2) ∧
    fetchMetalPriceNB 0 "toString" [.netError, .netError, .netError] 2
      = (.error .networkError, 3) ∧
    "toString" ∉ symbolsList := by
  refine ⟨?_, ?_, by decide⟩
  · norm_num [fetchMetalPrice, fetchLoopCB, cbInit, closeIfHalfOpen, recordFailure,
      lookupKey, metalsCB, jsGetProp, jsTruthyProp, objectProtoKeys,
      FAILURE_THRESHOLD, RECOVERY_TIMEOUT]
    simp
  · norm_num [fetchMetalPriceNB, fetchLoopNB, lookupKey, metalsCB, jsGetProp,
      jsTruthyProp, objectProtoKeys]
    simp

/-- Claim C6 as amended: for every symbol that is neither a configured
symbol nor a property name inherited from Object.prototype, fetchMetalPrice
fails with UnsupportedSymbol and performs zero network calls, in both
revisions; for an inherited name such as toString the truthiness guard
passes and the call proceeds into the network retry loop. -/
theorem C6_unsupported_symbol_amended (s : String) (b : Breaker) (now : ℚ)
    (outs : List AttemptOutcome) (r : Nat)
    (h1 : s ≠ "XAU") (h2 : s ≠ "XAG") (h3 : s ≠ "XPT") (h4 : s ≠ "XPD")
    (hp : s ∉ objectProtoKeys) :
    fetchMetalPrice b now s outs r = (b, .error (.unsupportedSymbol s), 0) ∧
    fetchMetalPriceNB now s outs r = (.error (.unsupportedSymbol s), 0) ∧
    (b.state = .closed →
      fetchMetalPrice b now "toString" outs r = fetchLoopCB now b outs (r + 1)) := by
  have hl : lookupKey metalsCB s = none := by
    simp [metalsCB, lookupKey, h1, h2, h3, h4]
  have hg : jsGetProp metalsCB s = .absent := by
    simp [jsGetProp, hl, hp]
  have ht : jsGetProp metalsCB "toString" = .inherited := by
    simp [jsGetProp, lookupKey, metalsCB, objectProtoKeys]
  refine ⟨?_, ?_, ?_⟩
  · simp [fetchMetalPrice, hg, jsTruthyProp]
  · simp [fetchMetalPriceNB, hg, jsTruthyProp]
  · intro hb
    simp [fetchMetalPrice, ht, jsTruthyProp, hb]

/-- Witness for C6 as amended at the concrete symbols BTC and toString. -/
theorem C6_unsupported_symbol_amended_witness :
    fetchMetalPrice cbInit 0 "BTC" [] 1
      = (cbInit, .error (.unsupportedSymbol "BTC"), 0) ∧
    fetchMetalPriceNB 0 "BTC" [] 1 = (.error (.unsupportedSymbol "BTC"), 0) ∧
    fetchMetalPrice cbInit 0 "toString" [] 1 = fetchLoopCB 0 cbInit [] 2 := by
  have h := C6_unsupported_symbol_amended "BTC" cbInit 0 [] 1
    (by decide) (by decide) (by decide) (by decide) (by decide)
  exact ⟨h.1, h.2.1, h.2.2 rfl⟩

/-- Claim C7: within one refresh tick, a fetch failure or a write failure for
one symbol leaves that symbol at its previously stored value while every
other symbol is still processed on its own outcome; the tick itself always
completes (updateAllMetalPrices is a total function of the per-symbol
outcomes). -/
theorem C7_tick_failure_isolation (f : String → Except FetchErr MetalQuote)
    (w : String → Bool) (t : ℚ) (st : PriceStore) (sym : String)
    (hmem : sym ∈ symbolsList) :
    (∀ e, f sym = .error e →
        lookupKey (updateAllMetalPrices f w t st) sym = lookupKey st sym) ∧
    (w sym = false →
        lookupKey (updateAllMetalPrices f w t st) sym = lookupKey st sym) ∧
    (∀ q, f sym = .ok q → w sym = true →
        lookupKey (updateAllMetalPrices f w t st) sym = some (rowOfQuote q t)) := by
  have hspec := lookupKey_tick_spec f w t symbolsList st sym symbolsList_nodup hmem
  refine ⟨?_, ?_, ?_⟩
  · intro e hf
    unfold updateAllMetalPrices
    rw [hspec, hf]
  · intro hw
    unfold updateAllMetalPrices
    rw [hspec]
    cases hf : f sym with
    | error e => rfl
    | ok q => simp [hw]
  · intro q hf hw
    unfold updateAllMetalPrices
    rw [hspec, hf]
    simp [hw]

/-- Witness for C7: a tick in which every fetch fails leaves the store rows
unchanged at XAU. -/
theorem C7_tick_failure_isolation_witness :
    lookupKey (updateAllMetalPrices (fun _ => .error .networkError) (fun _ => true) 7 []) "XAU"
      = lookupKey ([] : PriceStore) "XAU" :=
  (C7_tick_failure_isolation (fun _ => .error .networkError) (fun _ => true) 7 [] "XAU"
    (by decide)).1 .networkError rfl

/-- A cache key of the signals endpoint whose query string carries the text
/api/prices: GET /api/signals?x=/api/prices under the method:path:query key
scheme of getCacheKey. -/
def sigKeyC8 : String := "GET:/api/signals:\x7b\x22x\x22:\x22/api/prices\x22\x7d"

/-- A cache key of the price listing reached through the case-variant path
/API/prices (Express routing is case-insensitive by default). -/
def capKeyC8 : String := "GET:/API/prices:\x7b\x7d"

/-- Counterexample to claim C8 as stated: the tick deletes by case-sensitive
substring, so a cache entry of the unrelated signals endpoint whose query
contains /api/prices is removed by the tick, while a price-listing entry
cached under the case-variant path /API/prices survives it — the
invalidation is neither confined to price-listing entries nor complete
over them. -/
theorem C8_key_injection_counterexample :
    lookupKey (updateAllMetalPricesFull (fun _ => .error .networkError) (fun _ => true)
        0 [] [(sigKeyC8, (1 : Nat)), (capKeyC8, 2)]).2 sigKeyC8 = none ∧
    lookupKey (updateAllMetalPricesFull (fun _ => .error .networkError) (fun _ => true)
        0 [] [(sigKeyC8, (1 : Nat)), (capKeyC8, 2)]).2 capKeyC8 = some 2 ∧
    strIncludes sigKeyC8 "/api/prices" = true ∧
    strIncludes capKeyC8 "/api/prices" = false := by decide

/-- Claim C8 as amended: on completion of a refresh tick exactly the
response-cache entries whose key contains the case-sensitive substring
/api/prices are removed and every other entry is looked up unchanged; this
coincides with the price-listing endpoints only for canonical keys — a
query string containing the text /api/prices gets an unrelated endpoint
invalidated, and a case-variant path such as /API/prices produces a
price-listing entry that survives.  The concrete conjuncts check the
canonical key classes of the actual endpoints. -/
theorem C8_selective_cache_invalidation {β : Type}
    (f : String → Except FetchErr MetalQuote) (w : String → Bool) (t : ℚ)
    (st : PriceStore) (rc : List (String × β)) (k : String) :
    (lookupKey (updateAllMetalPricesFull f w t st rc).2 k
      = if strIncludes k "/api/prices" then none else lookupKey rc k) ∧
    strIncludes "GET:/api/prices:" "/api/prices" = true ∧
    strIncludes "GET:/api/prices/light:" "/api/prices" = true ∧
    strIncludes "GET:/api/signals:" "/api/prices" = false ∧
    strIncludes "GET:/api/statistics/history:" "/api/prices" = false := by
  refine ⟨?_, by decide, by decide, by decide, by decide⟩
  exact lookupKey_filter_out (fun key => strIncludes key "/api/prices") rc k

/-- Claim C9: after one put, a get for the same key within the ttl returns
exactly the stored payload, a get at or past the ttl is a miss, and a
within-ttl hit through the cache middleware issues zero handler
invocations and leaves the cache unchanged. -/
theorem C9_cache_ttl {α : Type} (c : RespCache α) (k : String) (d : α)
    (dur t0 t : ℚ) (h : Nat × α) :
    (getFromCache (setCache c k d dur t0) k t
        = if t - t0 < dur then some d else none) ∧
    (t - t0 < dur →
      cacheMiddleware dur (setCache c k d dur t0) k t h
        = ((200, d), 0, setCache c k d dur t0)) := by
  have hl := lookupKey_setCache_self c k d dur t0
  have hget : getFromCache (setCache c k d dur t0) k t
      = if t - t0 < dur then some d else none := by
    unfold getFromCache
    rw [hl]
  refine ⟨hget, fun hlt => ?_⟩
  unfold cacheMiddleware
  rw [hget, if_pos hlt]

/-- Witness for C9 at a concrete put/get pair inside the ttl. -/
theorem C9_cache_ttl_witness :
    (getFromCache (setCache ([] : RespCache Nat) "GET:/api/prices:" 42 10000 0)
        "GET:/api/prices:" 5000
      = if (5000 : ℚ) - 0 < 10000 then some 42 else none) ∧
    cacheMiddleware 10000 (setCache ([] : RespCache Nat) "GET:/api/prices:" 42 10000 0)
        "GET:/api/prices:" 5000 (200, 42)
      = ((200, 42), 0, setCache [] "GET:/api/prices:" 42 10000 0) :=
  ⟨(C9_cache_ttl [] "GET:/api/prices:" 42 10000 0 5000 (200, 42)).1,
   (C9_cache_ttl [] "GET:/api/prices:" 42 10000 0 5000 (200, 42)).2 (by norm_num)⟩

/-- Claim C5 (code evaluation at the failing input): for a response body in
which ask, bid and price are all absent and no error is signaled,
fetchMetalPrice does not fail with a malformed-response error; parseQuote
returns a quote whose price, ask, bid, change and changePercent are all NaN
(undefined arithmetic), contradicting the specified behaviour. -/
theorem C5_nan_quote_eval :
    parseQuote 0 emptyBody = .ok
      { price := .nan, ask := .nan, bid := .nan, change := .nan, changePercent := .nan,
        timestamp := some 0, high_24h := none, low_24h := none, open_price := none,
        prev_close_price := none } := by
  norm_num [parseQuote, midOf, prevCloseOf, optRound2, round2, jsOrV, truthyV, toNum,
    errTruthy, jsAdd, jsMul, jsDiv, jsSub, jsNeg, jsRound, emptyBody]

/-- Counterexample to claim C10 as stated: with prev_close_price absent and a
source price of 0, the returned quote has change = 0 but changePercent = NaN
(the 0/0 of change / previousClose), not 0. -/
theorem C10_zero_mid_counterexample :
    zeroPriceBody.prev_close_price = none ∧
    parseQuote 0 zeroPriceBody = .ok
      { price := .num 0, ask := .num 0, bid := .num 0, change := .num 0,
        changePercent := .nan, timestamp := some 0, high_24h := none, low_24h := none,
        open_price := none, prev_close_price := none } := by
  refine ⟨rfl, ?_⟩
  norm_num [parseQuote, midOf, prevCloseOf, optRound2, round2, jsOrV, truthyV, toNum,
    errTruthy, jsAdd, jsMul, jsDiv, jsSub, jsNeg, jsRound, zeroPriceBody]

/-- Claim C10 as amended: when prev_close_price is absent, previousClose
defaults to the computed mid, so the quote always has change = 0; its
changePercent is 0 whenever the mid is a nonzero number, and NaN when the
mid is 0. -/
theorem C10_prev_close_default (now : ℚ) (data : ApiBody) (m : ℚ)
    (hprev : data.prev_close_price = none) (herr : errTruthy data.error = false)
    (hmid : midOf data = JsNum.num m) :
    ((parseQuote now data).toOption.map MetalQuote.change = some (JsNum.num 0)) ∧
    (m ≠ 0 → (parseQuote now data).toOption.map MetalQuote.changePercent
        = some (JsNum.num 0)) ∧
    (m = 0 → (parseQuote now data).toOption.map MetalQuote.changePercent
        = some JsNum.nan) := by
  have hpc : prevCloseOf data = JsNum.num m := by
    simp [prevCloseOf, hprev, truthyV, hmid]
  have hchange : jsSub (midOf data) (prevCloseOf data) = JsNum.num 0 := by
    rw [hmid, hpc]
    simp [jsSub, jsAdd, jsNeg]
  have hr2 : round2 (JsNum.num 0) = JsNum.num 0 := by
    norm_num [round2, jsMul, jsRound, jsDiv]
  have hok : parseQuote now data = Except.ok
      { price := round2 (midOf data),
        ask := round2 (toNum (jsOrV data.ask data.price)),
        bid := round2 (toNum (jsOrV data.bid data.price)),
        change := round2 (jsSub (midOf data) (prevCloseOf data)),
        changePercent := round2 (jsMul (jsDiv (jsSub (midOf data) (prevCloseOf data))
          (prevCloseOf data)) (JsNum.num 100)),
        timestamp := jsOrV data.timestamp (some now),
        high_24h := optRound2 data.high_24h,
        low_24h := optRound2 data.low_24h,
        open_price := optRound2 data.open_price,
        prev_close_price := optRound2 data.prev_close_price } := by
    simp [parseQuote, herr]
  refine ⟨?_, ?_, ?_⟩
  · rw [hok]
    simp [Except.toOption, hchange, hr2]
  · intro hm
    rw [hok]
    simp only [Except.toOption, Option.map_some']
    rw [hchange, hpc,
      show jsDiv (JsNum.num 0) (JsNum.num m) = JsNum.num 0 from by
        simp [jsDiv, hm, zero_div],
      show jsMul (JsNum.num 0) (JsNum.num 100) = JsNum.num 0 from by
        norm_num [jsMul]]
    simp [hr2]
  · intro hm
    subst hm
    rw [hok]
    simp only [Except.toOption, Option.map_some']
    rw [hchange, hpc,
      show jsDiv (JsNum.num 0) (JsNum.num 0) = JsNum.nan from by simp [jsDiv]]
    simp [round2, jsMul, jsRound, jsDiv]

/-- Witness for C10 as amended, at the concrete body goodBody (mid 2001). -/
theorem C10_prev_close_default_witness :
    ((parseQuote 1000 goodBody).toOption.map MetalQuote.change = some (JsNum.num 0)) ∧
    ((parseQuote 1000 goodBody).toOption.map MetalQuote.changePercent
        = some (JsNum.num 0)) := by
  have h := C10_prev_close_default 1000 goodBody 2001 rfl rfl
    (by norm_num [midOf, goodBody, jsOrV, truthyV, toNum, jsAdd, jsDiv])
  exact ⟨h.1, h.2.1 (by norm_num)⟩

/-- A truthy error field makes parseQuote fail with SourceApiError. -/
theorem parseQuote_err (now : ℚ) (data : ApiBody) (h : errTruthy data.error = true) :
    parseQuote now data = .error (.sourceApiError (data.error.getD "")) := by
  simp [parseQuote, h]

/-- Counterexample to claim C4 as stated: starting from a closed breaker, an
invocation whose first attempt yields a source-signaled error body and whose
second attempt succeeds returns the second attempt's quote after TWO network
calls — the source-signaled error was retried (and it also incremented the
failure counter). -/
theorem C4_api_error_retried_counterexample :
    fetchMetalPrice cbInit 1000 "XAU" [.response errBody, .response goodBody] 1
      = ({ state := .closed, failureCount := 1, lastFailureTime := 0 },
         .ok goodQuote, 2) := by
  norm_num [fetchMetalPrice, fetchLoopCB, cbInit, closeIfHalfOpen, recordFailure,
    lookupKey, metalsCB, jsGetProp, jsTruthyProp, FAILURE_THRESHOLD, RECOVERY_TIMEOUT,
    parseQuote, midOf, prevCloseOf, optRound2, round2, jsOrV, truthyV, toNum,
    errTruthy, jsAdd, jsMul, jsDiv, jsSub, jsNeg, jsRound, errBody, goodBody, goodQuote]
  simp

/-- Claim C4 as amended: within one invocation, a response carrying a truthy
error field at a non-final attempt is handled exactly like a network error
(modulo the half-open close that any received response performs first): the
failure counter is incremented and the loop proceeds to another network
attempt. -/
theorem C4_api_error_counts_and_retries (b : Breaker) (now : ℚ) (body : ApiBody)
    (rest : List AttemptOutcome) (n : Nat) (h : errTruthy body.error = true) :
    (fetchLoopCB now b (.response body :: rest) (n + 2)
      = ((fetchLoopCB now (recordFailure (closeIfHalfOpen b) now) rest (n + 1)).1,
         (fetchLoopCB now (recordFailure (closeIfHalfOpen b) now) rest (n + 1)).2.1,
         (fetchLoopCB now (recordFailure (closeIfHalfOpen b) now) rest (n + 1)).2.2 + 1)) ∧
    (fetchLoopCB now b (.netError :: rest) (n + 2)
      = ((fetchLoopCB now (recordFailure b now) rest (n + 1)).1,
         (fetchLoopCB now (recordFailure b now) rest (n + 1)).2.1,
         (fetchLoopCB now (recordFailure b now) rest (n + 1)).2.2 + 1)) := by
  constructor
  · simp [fetchLoopCB, parseQuote_err now body h]
  · simp [fetchLoopCB]

/-- Witness for C4 as amended at the concrete error body. -/
theorem C4_api_error_counts_and_retries_witness :
    fetchLoopCB 0 cbInit [.response errBody] 2
      = ((fetchLoopCB 0 (recordFailure (closeIfHalfOpen cbInit) 0) [] 1).1,
         (fetchLoopCB 0 (recordFailure (closeIfHalfOpen cbInit) 0) [] 1).2.1,
         (fetchLoopCB 0 (recordFailure (closeIfHalfOpen cbInit) 0) [] 1).2.2 + 1) :=
  (C4_api_error_counts_and_retries cbInit 0 errBody [] 0 (by decide)).1

/-- A prior stored row for XAU with mid 2000.00. -/
def oldRowC1 : PriceRow :=
  { price := .num 2000, ask_price := .num 2000, bid_price := .num 2000,
    change_24h := .num 0, change_percent := .num 0, high_24h := none, low_24h := none,
    open_price := none, prev_close_price := none, last_updated := 0 }

/-- A fetched body whose mid is 2000.01, i.e. 0.01 away from the prior mid. -/
def bodyC1 : ApiBody :=
  { error := none, ask := some (200001/100), bid := some (200001/100), price := none,
    prev_close_price := none, high_24h := none, low_24h := none, open_price := none,
    timestamp := none }

/-- The row the tick writes for bodyC1 at tick time 7. -/
def newRowC1 : PriceRow :=
  { price := .num (200001/100), ask_price := .num (200001/100),
    bid_price := .num (200001/100), change_24h := .num 0, change_percent := .num 0,
    high_24h := none, low_24h := none, open_price := none, prev_close_price := none,
    last_updated := 7 }

/-- Tick environment: XAU fetch succeeds with bodyC1, everything else fails. -/
def envC1 : String → Except FetchErr MetalQuote :=
  fun s => if s = "XAU" then parseQuote 5 bodyC1 else .error .networkError

/-- Counterexample to claim C1 as stated: the prior stored mid is 2000.00 and
the freshly fetched mid is 2000.01 — a difference of exactly 0.01, not more —
yet the tick still replaces the stored row (there is no change-detection
gate in updateAllMetalPrices: it always INSERT OR REPLACEs). -/
theorem C1_threshold_counterexample :
    updateAllMetalPrices envC1 (fun _ => true) 7 [("XAU", oldRowC1)]
      = [("XAU", newRowC1)] ∧
    newRowC1 ≠ oldRowC1 ∧
    newRowC1.price = JsNum.num (200001/100) ∧
    oldRowC1.price = JsNum.num 2000 ∧
    ((200001 : ℚ)/100 - 2000 ≤ 1/100) := by
  have hq : parseQuote 5 bodyC1 = .ok
      { price := .num (200001/100), ask := .num (200001/100), bid := .num (200001/100),
        change := .num 0, changePercent := .num 0, timestamp := some 5,
        high_24h := none, low_24h := none, open_price := none,
        prev_close_price := none } := by
    norm_num [parseQuote, midOf, prevCloseOf, optRound2, round2, jsOrV, truthyV, toNum,
      errTruthy, jsAdd, jsMul, jsDiv, jsSub, jsNeg, jsRound, bodyC1]
  refine ⟨?_, ?_, rfl, rfl, by norm_num⟩
  · simp [updateAllMetalPrices, symbolsList, metalsCB, envC1, hq, updateSymbol,
      upsertRow, rowOfQuote, newRowC1]
  · intro hcontra
    have h7 := congrArg PriceRow.last_updated hcontra
    norm_num [newRowC1, oldRowC1] at h7

/-- Claim C1 as amended: the refresh pass persists every successfully fetched
quote unconditionally (INSERT OR REPLACE) — for any prior store contents,
any tracked symbol whose fetch and write succeed ends up at the freshly
fetched row, with no comparison against the previously stored mid. -/
theorem C1_unconditional_write (f : String → Except FetchErr MetalQuote)
    (w : String → Bool) (t : ℚ) (st : PriceStore) (sym : String) (q : MetalQuote)
    (hmem : sym ∈ symbolsList) (hf : f sym = .ok q) (hw : w sym = true) :
    lookupKey (updateAllMetalPrices f w t st) sym = some (rowOfQuote q t) := by
  have hspec := lookupKey_tick_spec f w t symbolsList st sym symbolsList_nodup hmem
  unfold updateAllMetalPrices
  rw [hspec, hf]
  simp [hw]

/-- Witness for C1 as amended: a successful fetch overwrites an existing row
regardless of its prior value. -/
theorem C1_unconditional_write_witness :
    lookupKey (updateAllMetalPrices (fun _ => .ok goodQuote) (fun _ => true) 7
      [("XAU", oldRowC1)]) "XAU" = some (rowOfQuote goodQuote 7) :=
  C1_unconditional_write (fun _ => .ok goodQuote) (fun _ => true) 7 [("XAU", oldRowC1)]
    "XAU" goodQuote (by decide) rfl rfl

/-- A stored row for the single-metal endpoint scenarios. -/
def rowC3 : PriceRow :=
  { price := .num 2650, ask_price := .num 2651, bid_price := .num 2649,
    change_24h := .num 10, change_percent := .num (38/100), high_24h := none,
    low_24h := none, open_price := none, prev_close_price := none, last_updated := 0 }

/-- Counterexample to claim C3 as stated: when the live fetch fails and a
stored row exists, the response carries no stale flag and no age field at
all — it is marked source fallback with a warning string instead; and when
no stored row exists the handler sends no response whatsoever (the line-464
rethrow lands in the ignored promise of the db.get callback, so the 500 is
unreachable), rather than a 5xx. -/
theorem C3_no_stale_marker_counterexample :
    metalPriceHandler "XAU" (some rowC3) 40000 (.error .networkError)
      = some (fallbackResp "XAU" rowC3 40000) ∧
    (fallbackResp "XAU" rowC3 40000).stale = none ∧
    (fallbackResp "XAU" rowC3 40000).age = none ∧
    (fallbackResp "XAU" rowC3 40000).source = some "fallback" ∧
    (fallbackResp "XAU" rowC3 40000).status = 200 ∧
    metalPriceHandler "XAU" none 40000 (.error .networkError) = none := by
  refine ⟨?_, rfl, rfl, rfl, rfl, ?_⟩
  · norm_num [metalPriceHandler, lookupKey, metalsCB, jsGetProp, jsTruthyProp, rowC3]
    simp
  · norm_num [metalPriceHandler, lookupKey, metalsCB, jsGetProp, jsTruthyProp]
    simp

/-- Claim C3 as amended: for a supported symbol, when the live fetch fails
and a stale stored row exists the handler returns exactly the stored payload
marked source fallback with the fixed warning string (and no stale or age
fields); when no stored row exists the fetch error escapes into the ignored
promise of the db.get callback after the outer try/catch has returned, so
the handler sends no response at all — no 5xx is produced on that path. -/
theorem C3_fallback_shape (sym : String) (r : PriceRow) (now : ℚ) (e : FetchErr)
    (hsym : jsTruthyProp (jsGetProp metalsCB sym) = true)
    (hstale : ¬ (now - r.last_updated < 30000)) :
    metalPriceHandler sym (some r) now (.error e) = some (fallbackResp sym r now) ∧
    metalPriceHandler sym none now (.error e) = none ∧
    (fallbackResp sym r now).source = some "fallback" ∧
    (fallbackResp sym r now).warning = some "Live data unavailable, showing cached data" ∧
    (fallbackResp sym r now).stale = none ∧
    (fallbackResp sym r now).age = none ∧
    (fallbackResp sym r now).price = some r.price := by
  refine ⟨?_, ?_, rfl, rfl, rfl, rfl, rfl⟩
  · simp [metalPriceHandler, hsym, hstale]
  · simp [metalPriceHandler, hsym]

/-- Witness for C3 as amended at a concrete stale row and fetch failure. -/
theorem C3_fallback_shape_witness :
    metalPriceHandler "XAU" (some rowC3) 40000 (.error .circuitOpen)
      = some (fallbackResp "XAU" rowC3 40000) ∧
    metalPriceHandler "XAU" none 40000 (.error .circuitOpen) = none := by
  have h := C3_fallback_shape "XAU" rowC3 40000 .circuitOpen (by decide)
    (by norm_num [rowC3])
  exact ⟨h.1, h.2.1⟩

/-- Attempt outcomes of a first invocation: two network failures. -/
def cxOut1 : List AttemptOutcome := [.netError, .netError]

/-- Attempt outcomes of a second invocation: an immediate good response. -/
def cxOut2 : List AttemptOutcome := [.response goodBody]

/-- Attempt outcomes of a third invocation: a failure then a good response. -/
def cxOut3 : List AttemptOutcome := [.netError, .response goodBody]

/-- The breaker state after running the three invocations above in order. -/
def cxRunBreaker : Breaker :=
  (fetchMetalPrice
    (fetchMetalPrice
      (fetchMetalPrice cbInit 1000 "XAU" cxOut1 1).1
      2000 "XAU" cxOut2 1).1
    3000 "XAU" cxOut3 1).1

/-- Counterexample to claim C2 as stated: after the attempt-outcome trace
failure, failure, success, failure, success the breaker is Open with
failureCount 3, although the trace contains an intervening success and never
three consecutive failures — a success in the Closed state does not reset
the counter. -/
theorem C2_open_without_three_consecutive :
    cxRunBreaker
      = { state := .opened, failureCount := 3, lastFailureTime := 3000 } ∧
    threeConsecutive ((cxOut1 ++ cxOut2 ++ cxOut3).map attemptFailed) = false ∧
    (cxOut1 ++ cxOut2 ++ cxOut3).map attemptFailed
      = [true, true, false, true, false] := by
  have h1 : (fetchMetalPrice cbInit 1000 "XAU" cxOut1 1).1
      = { state := .closed, failureCount := 2, lastFailureTime := 0 } := by
    norm_num [fetchMetalPrice, fetchLoopCB, cbInit, closeIfHalfOpen, recordFailure,
      lookupKey, metalsCB, jsGetProp, jsTruthyProp, FAILURE_THRESHOLD,
      RECOVERY_TIMEOUT, cxOut1]
    simp
  have h2 : (fetchMetalPrice
        { state := .closed, failureCount := 2, lastFailureTime := 0 }
        2000 "XAU" cxOut2 1).1
      = { state := .closed, failureCount := 2, lastFailureTime := 0 } := by
    norm_num [fetchMetalPrice, fetchLoopCB, closeIfHalfOpen, recordFailure,
      lookupKey, metalsCB, jsGetProp, jsTruthyProp, FAILURE_THRESHOLD,
      RECOVERY_TIMEOUT, cxOut2,
      parseQuote, midOf, prevCloseOf, optRound2, round2, jsOrV, truthyV, toNum,
      errTruthy, jsAdd, jsMul, jsDiv, jsSub, jsNeg, jsRound, goodBody]
    simp
  have h3 : (fetchMetalPrice
        { state := .closed, failureCount := 2, lastFailureTime := 0 }
        3000 "XAU" cxOut3 1).1
      = { state := .opened, failureCount := 3, lastFailureTime := 3000 } := by
    norm_num [fetchMetalPrice, fetchLoopCB, closeIfHalfOpen, recordFailure,
      lookupKey, metalsCB, jsGetProp, jsTruthyProp, FAILURE_THRESHOLD,
      RECOVERY_TIMEOUT, cxOut3,
      parseQuote, midOf, prevCloseOf, optRound2, round2, jsOrV, truthyV, toNum,
      errTruthy, jsAdd, jsMul, jsDiv, jsSub, jsNeg, jsRound, goodBody]
    simp
  refine ⟨?_, by decide, by decide⟩
  unfold cxRunBreaker
  rw [h1, h2, h3]

/-- Claim C2 as amended: the breaker opens exactly when the cumulative
failure count reaches the threshold 3, where the counter is incremented by
every failed attempt and reset only by a response received in the HalfOpen
state (a Closed-state success does not reset it); while Open and until
strictly more than 30s have elapsed since the last failure stamp, an
invocation fails immediately with a circuit-open error and zero network
calls; once more than 30s have elapsed the next invocation proceeds with the
breaker HalfOpen; a response received in HalfOpen closes the breaker and
resets the counter to 0; a failure taking the counter to the threshold or
beyond (re)opens the breaker and restamps the failure time. -/
theorem C2_breaker_semantics :
    (∀ (b : Breaker) (now : ℚ) (outs : List AttemptOutcome) (r : Nat),
      b.state = .opened → ¬ (RECOVERY_TIMEOUT < now - b.lastFailureTime) →
      fetchMetalPrice b now "XAU" outs r = (b, .error .circuitOpen, 0)) ∧
    (∀ (b : Breaker) (now : ℚ) (outs : List AttemptOutcome) (r : Nat),
      b.state = .opened → RECOVERY_TIMEOUT < now - b.lastFailureTime →
      fetchMetalPrice b now "XAU" outs r
        = fetchLoopCB now { b with state := .halfOpen } outs (r + 1)) ∧
    (∀ b : Breaker, b.state = .halfOpen →
      closeIfHalfOpen b = { b with state := .closed, failureCount := 0 }) ∧
    (∀ b : Breaker, b.state = .closed → closeIfHalfOpen b = b) ∧
    (∀ (b : Breaker) (now : ℚ), FAILURE_THRESHOLD ≤ b.failureCount + 1 →
      recordFailure b now
        = { state := .opened, failureCount := b.failureCount + 1,
            lastFailureTime := now }) ∧
    (∀ (b : Breaker) (now : ℚ), b.failureCount + 1 < FAILURE_THRESHOLD →
      recordFailure b now = { b with failureCount := b.failureCount + 1 }) := by
  have hx : jsTruthyProp (jsGetProp metalsCB "XAU") = true := by decide
  refine ⟨?_, ?_, ?_, ?_, ?_, ?_⟩
  · intro b now outs r h1 h2
    simp [fetchMetalPrice, hx, h1, h2]
  · intro b now outs r h1 h2
    simp [fetchMetalPrice, hx, h1, h2]
  · intro b h
    simp [closeIfHalfOpen, h]
  · intro b h
    simp [closeIfHalfOpen, h]
  · intro b now h
    simp only [recordFailure]
    rw [if_pos (by simpa using h)]
  · intro b now h
    simp only [recordFailure]
    rw [if_neg (by simpa using Nat.not_le.mpr h)]

/-- A breaker that has been Open since time 0 with the counter at 3. -/
def bOpenW : Breaker := { state := .opened, failureCount := 3, lastFailureTime := 0 }

/-- A HalfOpen breaker with the counter at 3. -/
def bHalfW : Breaker := { state := .halfOpen, failureCount := 3, lastFailureTime := 0 }

/-- Witness for C2 as amended, instantiating every conjunct concretely. -/
theorem C2_breaker_semantics_witness :
    fetchMetalPrice bOpenW 100 "XAU" [.netError] 1
      = (bOpenW, .error .circuitOpen, 0) ∧
    fetchMetalPrice bOpenW 40000 "XAU" [] 1
      = fetchLoopCB 40000 { bOpenW with state := .halfOpen } [] 2 ∧
    closeIfHalfOpen bHalfW = { bHalfW with state := .closed, failureCount := 0 } ∧
    closeIfHalfOpen cbInit = cbInit ∧
    recordFailure bHalfW 500
      = { state := .opened, failureCount := bHalfW.failureCount + 1,
          lastFailureTime := 500 } ∧
    recordFailure cbInit 500 = { cbInit with failureCount := cbInit.failureCount + 1 } := by
  have h := C2_breaker_semantics
  exact ⟨h.1 bOpenW 100 [.netError] 1 rfl (by norm_num [bOpenW, RECOVERY_TIMEOUT]),
         h.2.1 bOpenW 40000 [] 1 rfl (by norm_num [bOpenW, RECOVERY_TIMEOUT]),
         h.2.2.1 bHalfW rfl,
         h.2.2.2.1 cbInit rfl,
         h.2.2.2.2.1 bHalfW 500 (by decide),
         h.2.2.2.2.2 cbInit 500 (by decide)⟩

end GoldBackend
